import Mathlib

/-!
Verification development for the shm-rpc-bridge repository: a shared-memory
RPC bridge (POSIX shared memory + named counting semaphores).

The repository contains two revisions of the transport:
* `shm_rpc_bridge/_internal/transport.py` (`SharedMemoryTransport`, used by
  `RPCClient` and the test-suite) — receive-side size validation present;
* `shm_rpc_bridge/transport.py` (legacy revision, imported by `RPCServer`) —
  no receive-side size validation.

Definitions below are shallow embeddings of the Python source.  Stateful
methods become functions `State → State × Except RPCFailure α`.  Python ints
are `Nat`/`Int` (with explicit `% 2 ^ 32` where the 4-byte header wraps);
byte strings are `List Nat`.  Blocking semaphore waits with no timeout are
modelled by the dedicated outcome `RPCFailure.blocked` (it is not an
exception in the source; it marks a non-returning wait).

The modules `shm_rpc_bridge/exceptions.py` and the codec
(`shm_rpc_bridge/_internal/data.py`) are not part of the provided sources;
they are modelled from the specification where needed and marked as such.
-/

namespace ShmRpc

/-- `HEADER_SIZE = 4` from both transport files. -/
def headerSize : Nat := 4

/-- `struct.pack("I", n)` for `0 ≤ n < 2 ^ 32`: the four bytes of `n`,
least-significant first.  The format character `"I"` uses native byte order;
on the platforms the library supports (Linux/macOS on x86-64 and AArch64)
that order is little-endian. -/
def packI (n : Nat) : List Nat :=
  [n % 256, n / 256 % 256, n / 256 ^ 2 % 256, n / 256 ^ 3 % 256]

/-- `struct.unpack("I", b)[0]` for a 4-byte little-endian buffer. -/
def unpackI (bs : List Nat) : Nat :=
  match bs with
  | [b0, b1, b2, b3] => b0 % 256 + b1 % 256 * 256 + b2 % 256 * 256 ^ 2 + b3 % 256 * 256 ^ 3
  | _ => 0

/-- Modelled from the spec: the error taxonomy of the missing module
`shm_rpc_bridge/exceptions.py` (§7 of the spec), as used by the sources:
`RPCError` (base class; the spec's Protocol kind), `RPCTimeoutError`,
`RPCTransportError`, `RPCMethodError` (the spec's RemoteMethod kind) and
`RPCSerializationError`.  Two extra outcomes close the embedding:
`assertionError`/`attributeError` for plain Python exceptions raised by the
sources, and `blocked` for a semaphore wait with no timeout that never
returns. -/
inductive RPCFailure where
  | rpcError (msg : String)
  | timeoutError (msg : String)
  | transportError (msg : String)
  | methodError (msg : String)
  | serializationError (msg : String)
  | assertionError (msg : String)
  | attributeError (msg : String)
  | blocked
deriving DecidableEq, Repr

/-- `True` exactly on the `RPCTransportError` outcome. -/
def RPCFailure.isTransport : RPCFailure → Bool
  | .transportError _ => true
  | _ => false

/-- One direction of the channel: the `(empty, full)` counting-semaphore pair
and the bytes of the mapped buffer.  (`SharedMemoryTransport` fields
`*_empty_sem` value, `*_full_sem` value, `*_mmap` contents.) -/
structure SlotState where
  emptySem : Nat
  fullSem : Nat
  buf : List Nat
deriving DecidableEq, Repr

/-- Which of the transport's handle fields are non-`None`
(`request_shm`, `response_shm`, `request_mmap`, `response_mmap` and the four
semaphore handles of `SharedMemoryTransport.__init__`). -/
structure Handles where
  reqShm : Bool
  respShm : Bool
  reqMmap : Bool
  respMmap : Bool
  reqEmptySem : Bool
  reqFullSem : Bool
  respEmptySem : Bool
  respFullSem : Bool
deriving DecidableEq, Repr

/-- All eight handle fields set (a fully initialized transport). -/
def Handles.all : Handles :=
  ⟨true, true, true, true, true, true, true, true⟩

/-- No handle set (the state after `close`). -/
def Handles.none : Handles :=
  ⟨false, false, false, false, false, false, false, false⟩

/-- Existence of the six kernel-persistent objects of one channel `N`:
shared memory `/<N>_request`, `/<N>_response` and semaphores
`/<N>_req_empty`, `/<N>_req_full`, `/<N>_resp_empty`, `/<N>_resp_full`. -/
structure KernelEnv where
  reqShm : Bool
  respShm : Bool
  reqEmpty : Bool
  reqFull : Bool
  respEmpty : Bool
  respFull : Bool
deriving DecidableEq, Repr

/-- The environment in which none of the six objects exist. -/
def KernelEnv.empty : KernelEnv :=
  ⟨false, false, false, false, false, false⟩

/-- The environment in which all six objects exist. -/
def KernelEnv.full : KernelEnv :=
  ⟨true, true, true, true, true, true⟩

/-- State of one `SharedMemoryTransport` instance: `buffer_size`, whether
`timeout` is a number (`True`) or `None` (`False`), the creator flag
(`self.owner` in the internal revision, `self.create` in the legacy one),
the handle fields, and the two producer-consumer slots. -/
structure TransportState where
  bufferSize : Nat
  hasTimeout : Bool
  owner : Bool
  handles : Handles
  req : SlotState
  resp : SlotState
deriving DecidableEq, Repr

/-- The buffer contents after `seek(0); write(struct.pack("I", len(data)));
write(data)`: header, payload, and the untouched remainder of the mapping. -/
def writeFrame (buf : List Nat) (data : List Nat) : List Nat :=
  packI data.length ++ data ++ buf.drop (headerSize + data.length)

end ShmRpc

namespace ShmRpc

/-- Core of `send_request` / `send_response` (both transport revisions have
the same send path): size guard before the lock, assertion on the semaphore
handles, wait on `*_empty`, header+payload write, post of `*_full`.
`semsOk`/`mmapOk` say whether the corresponding handle fields are
non-`None`; `noun` is the word in the error messages ("request" or
"response").  A payload length `≥ 2 ^ 32` makes `struct.pack("I", size)`
raise after the wait has already consumed the empty slot. -/
def slotSend (bufferSize : Nat) (hasTimeout : Bool) (semsOk mmapOk : Bool)
    (noun : String) (slot : SlotState) (data : List Nat) :
    SlotState × Except RPCFailure Unit :=
  if (data.length : Int) > (bufferSize : Int) - (headerSize : Int) then
    (slot, .error (.transportError ("Message too large: " ++ toString data.length
      ++ " bytes exceeds buffer size")))
  else if ¬semsOk then
    (slot, .error (.transportError ("Failed to send " ++ noun ++ ": ")))
  else if 0 < slot.emptySem then
    -- `*_empty.acquire(timeout=...)` succeeded and decremented the count
    let slot1 : SlotState := { slot with emptySem := slot.emptySem - 1 }
    if ¬mmapOk then
      (slot1, .error (.transportError ("Failed to send " ++ noun ++ ": ")))
    else if 2 ^ 32 ≤ data.length then
      (slot1, .error (.transportError ("Failed to send " ++ noun
        ++ ": struct error: argument out of range")))
    else
      ({ slot1 with buf := writeFrame slot.buf data, fullSem := slot.fullSem + 1 },
        .ok ())
  else if hasTimeout then
    -- `posix_ipc.BusyError` converted to `RPCTimeoutError`
    (slot, .error (.timeoutError ("Timeout sending " ++ noun)))
  else
    (slot, .error .blocked)

/-- Core of `receive_request` / `receive_response`: wait on `*_full`, read
the 4-byte header, (in the internal revision only: validate it), copy the
payload out — `mmap.read` clamps at the end of the mapping — and post
`*_empty`.  `validate` distinguishes the internal revision (`True`) from the
legacy one (`False`).  An `RPCTransportError` raised by the validation is
re-wrapped by the generic `except Exception` clause, hence the
"Failed to receive …: Invalid message size: …" message. -/
def slotRecv (bufferSize : Nat) (hasTimeout : Bool) (semsOk mmapOk validate : Bool)
    (noun : String) (slot : SlotState) :
    SlotState × Except RPCFailure (List Nat) :=
  if ¬semsOk then
    (slot, .error (.transportError ("Failed to receive " ++ noun ++ ": ")))
  else if 0 < slot.fullSem then
    -- `*_full.acquire(timeout=...)` succeeded and decremented the count
    let slot1 : SlotState := { slot with fullSem := slot.fullSem - 1 }
    if ¬mmapOk then
      (slot1, .error (.transportError ("Failed to receive " ++ noun ++ ": ")))
    else
      let sizeBytes := slot.buf.take headerSize
      if sizeBytes.length ≠ headerSize then
        (slot1, .error (.transportError ("Failed to receive " ++ noun
          ++ ": struct error: unpack requires a buffer of 4 bytes")))
      else
        let size := unpackI sizeBytes
        if validate ∧ (size : Int) > (bufferSize : Int) - (headerSize : Int) then
          (slot1, .error (.transportError ("Failed to receive " ++ noun
            ++ ": Invalid message size: " ++ toString size)))
        else
          let data := (slot.buf.drop headerSize).take size
          ({ slot1 with emptySem := slot1.emptySem + 1 }, .ok data)
  else if hasTimeout then
    -- `posix_ipc.BusyError` converted to `RPCTimeoutError`
    (slot, .error (.timeoutError ("Timeout receiving " ++ noun)))
  else
    (slot, .error .blocked)

/-- `SharedMemoryTransport.send_request` of
`_internal/transport.py` (lines 216-252). -/
def sendRequestI (t : TransportState) (data : List Nat) :
    TransportState × Except RPCFailure Unit :=
  let r := slotSend t.bufferSize t.hasTimeout
    (t.handles.reqEmptySem && t.handles.reqFullSem) t.handles.reqMmap
    ("request") t.req data
  ({ t with req := r.1 }, r.2)

/-- `SharedMemoryTransport.send_response` of
`_internal/transport.py` (lines 297-333). -/
def sendResponseI (t : TransportState) (data : List Nat) :
    TransportState × Except RPCFailure Unit :=
  let r := slotSend t.bufferSize t.hasTimeout
    (t.handles.respEmptySem && t.handles.respFullSem) t.handles.respMmap
    ("response") t.resp data
  ({ t with resp := r.1 }, r.2)

/-- `SharedMemoryTransport.receive_request` of
`_internal/transport.py` (lines 254-295): header validation present. -/
def receiveRequestI (t : TransportState) :
    TransportState × Except RPCFailure (List Nat) :=
  let r := slotRecv t.bufferSize t.hasTimeout
    (t.handles.reqFullSem && t.handles.reqEmptySem) t.handles.reqMmap true
    ("request") t.req
  ({ t with req := r.1 }, r.2)

/-- `SharedMemoryTransport.receive_response` of
`_internal/transport.py` (lines 335-372): header validation present. -/
def receiveResponseI (t : TransportState) :
    TransportState × Except RPCFailure (List Nat) :=
  let r := slotRecv t.bufferSize t.hasTimeout
    (t.handles.respFullSem && t.handles.respEmptySem) t.handles.respMmap true
    ("response") t.resp
  ({ t with resp := r.1 }, r.2)

/-- `SharedMemoryTransport.send_request` of the legacy
`shm_rpc_bridge/transport.py` (lines 182-220); behaviourally the same send
path as the internal revision. -/
def sendRequestL (t : TransportState) (data : List Nat) :
    TransportState × Except RPCFailure Unit :=
  sendRequestI t data

/-- `SharedMemoryTransport.send_response` of the legacy
`shm_rpc_bridge/transport.py` (lines 261-299). -/
def sendResponseL (t : TransportState) (data : List Nat) :
    TransportState × Except RPCFailure Unit :=
  sendResponseI t data

/-- `SharedMemoryTransport.receive_request` of the legacy
`shm_rpc_bridge/transport.py` (lines 222-259): NO header validation — the
payload read is silently clamped at the end of the mapping. -/
def receiveRequestL (t : TransportState) :
    TransportState × Except RPCFailure (List Nat) :=
  let r := slotRecv t.bufferSize t.hasTimeout
    (t.handles.reqFullSem && t.handles.reqEmptySem) t.handles.reqMmap false
    ("request") t.req
  ({ t with req := r.1 }, r.2)

/-- `SharedMemoryTransport.receive_response` of the legacy
`shm_rpc_bridge/transport.py` (lines 301-338): NO header validation. -/
def receiveResponseL (t : TransportState) :
    TransportState × Except RPCFailure (List Nat) :=
  let r := slotRecv t.bufferSize t.hasTimeout
    (t.handles.respFullSem && t.handles.respEmptySem) t.handles.respMmap false
    ("response") t.resp
  ({ t with resp := r.1 }, r.2)

/-- `SharedMemoryTransport.close` of `_internal/transport.py`
(lines 374-421): close the mmap handles, unlink the shared memory iff the
handle is set and the instance is the creator, close each semaphore handle
and unlink it iff creator; every handle field is then cleared.  `safe_call`
swallows unlink failures, so unlinking an absent object is a no-op, which
the plain field assignment models. -/
def closeTransport (t : TransportState) (env : KernelEnv) :
    TransportState × KernelEnv :=
  let e1 := if t.handles.reqShm && t.owner then { env with reqShm := false } else env
  let e2 := if t.handles.respShm && t.owner then { e1 with respShm := false } else e1
  let e3 := if t.handles.reqEmptySem && t.owner then { e2 with reqEmpty := false } else e2
  let e4 := if t.handles.reqFullSem && t.owner then { e3 with reqFull := false } else e3
  let e5 := if t.handles.respEmptySem && t.owner then { e4 with respEmpty := false } else e4
  let e6 := if t.handles.respFullSem && t.owner then { e5 with respFull := false } else e5
  ({ t with handles := Handles.none }, e6)

/-- `SharedMemoryTransport.cleanup` of the legacy
`shm_rpc_bridge/transport.py` (lines 340-387): same effect on handle fields
and kernel objects (it additionally closes the shm file descriptors, which
have no kernel-object effect). -/
def cleanupTransportL (t : TransportState) (env : KernelEnv) :
    TransportState × KernelEnv :=
  closeTransport t env

end ShmRpc

namespace ShmRpc

/-- A slot as just created by the server: `*_empty` initialized to 1,
`*_full` to 0, and a zero-filled shared-memory segment of `bufferSize`
bytes. -/
def freshSlot (bufferSize : Nat) : SlotState :=
  ⟨1, 0, List.replicate bufferSize 0⟩

/-- `SharedMemoryTransport._create_resources` of `_internal/transport.py`
(lines 125-179): create the two shared-memory segments with `O_CREX`
(failing if the name already exists), map them, close the descriptors, then
create the four semaphores with `O_CREX` in the order req_empty, req_full,
resp_empty, resp_full.  Returns the handle fields acquired so far, the
kernel environment, and the error of the first failing step, if any. -/
def createResources (env : KernelEnv) : Handles × KernelEnv × Option String :=
  if env.reqShm then
    (Handles.none, env, some ("File exists"))
  else
    let h1 : Handles := { Handles.none with reqShm := true }
    let e1 : KernelEnv := { env with reqShm := true }
    if e1.respShm then (h1, e1, some ("File exists"))
    else
      let h2 : Handles := { h1 with respShm := true }
      let e2 : KernelEnv := { e1 with respShm := true }
      let h3 : Handles := { h2 with reqMmap := true, respMmap := true }
      if e2.reqEmpty then (h3, e2, some ("Semaphore exists"))
      else
        let h4 : Handles := { h3 with reqEmptySem := true }
        let e4 : KernelEnv := { e2 with reqEmpty := true }
        if e4.reqFull then (h4, e4, some ("Semaphore exists"))
        else
          let h5 : Handles := { h4 with reqFullSem := true }
          let e5 : KernelEnv := { e4 with reqFull := true }
          if e5.respEmpty then (h5, e5, some ("Semaphore exists"))
          else
            let h6 : Handles := { h5 with respEmptySem := true }
            let e6 : KernelEnv := { e5 with respEmpty := true }
            if e6.respFull then (h6, e6, some ("Semaphore exists"))
            else
              let h7 : Handles := { h6 with respFullSem := true }
              let e7 : KernelEnv := { e6 with respFull := true }
              (h7, e7, none)

/-- `SharedMemoryTransport._open_resources` of `_internal/transport.py`
(lines 181-214): open both segments (failing with `ExistentialError` when a
name is absent), map them, open the four semaphores.  Opening never changes
the kernel environment. -/
def openResources (env : KernelEnv) : Handles × KernelEnv × Option String :=
  if ¬env.reqShm then
    (Handles.none, env, some ("No shared memory exists with the specified name"))
  else
    let h1 : Handles := { Handles.none with reqShm := true }
    if ¬env.respShm then (h1, env, some ("No shared memory exists with the specified name"))
    else
      let h3 : Handles := { h1 with respShm := true, reqMmap := true, respMmap := true }
      if ¬env.reqEmpty then (h3, env, some ("No semaphore exists with the specified name"))
      else
        let h4 : Handles := { h3 with reqEmptySem := true }
        if ¬env.reqFull then (h4, env, some ("No semaphore exists with the specified name"))
        else
          let h5 : Handles := { h4 with reqFullSem := true }
          if ¬env.respEmpty then (h5, env, some ("No semaphore exists with the specified name"))
          else
            let h6 : Handles := { h5 with respEmptySem := true }
            if ¬env.respFull then (h6, env, some ("No semaphore exists with the specified name"))
            else
              let h7 : Handles := { h6 with respFullSem := true }
              (h7, env, none)

/-- `SharedMemoryTransport._initialize` of `_internal/transport.py`
(lines 113-123): create (creator) or open (opener) the resources; on any
failure call `self.close()` — which unlinks whatever a creator had already
created — and raise `RPCTransportError`.  For an opener the prior channel
state is the ambient `chanReq`/`chanResp`; a creator starts from fresh
slots. -/
def initTransport (owner : Bool) (bufferSize : Nat) (hasTimeout : Bool)
    (chanReq chanResp : SlotState) (env : KernelEnv) :
    Except RPCFailure TransportState × KernelEnv :=
  let r := if owner then createResources env else openResources env
  let partialT : TransportState :=
    { bufferSize := bufferSize, hasTimeout := hasTimeout, owner := owner,
      handles := r.1,
      req := if owner then freshSlot bufferSize else chanReq,
      resp := if owner then freshSlot bufferSize else chanResp }
  match r.2.2 with
  | none => (.ok partialT, r.2.1)
  | some e =>
    let c := closeTransport partialT r.2.1
    (.error (.transportError ("Failed to initialize transport: " ++ e)), c.2)

end ShmRpc

namespace ShmRpc

/-- Base-256 little-endian digits of a natural number (structural recursion
on a fuel bound, so that the codec evaluates inside the kernel; fuel `n`
always suffices since `n / 256 < n` for `n > 0`). -/
def natDigitsAux : Nat → Nat → List Nat
  | 0, _ => []
  | fuel + 1, n => if n = 0 then [] else (n % 256) :: natDigitsAux fuel (n / 256)

/-- Base-256 little-endian digits of a natural number. -/
def natDigits (n : Nat) : List Nat :=
  natDigitsAux n n

/-- Value of a base-256 little-endian digit list. -/
def natFromDigits : List Nat → Nat
  | [] => 0
  | d :: ds => d % 256 + 256 * natFromDigits ds

/-- Length-prefixed base-256 encoding of a natural number. -/
def encNat (n : Nat) : List Nat :=
  (natDigits n).length :: natDigits n

/-- Decode `encNat`: a digit-count byte followed by that many digits. -/
def decNat : List Nat → Option (Nat × List Nat)
  | [] => none
  | c :: rest =>
    if c ≤ rest.length then some (natFromDigits (rest.take c), rest.drop c)
    else none

/-- A character as four little-endian code-point bytes. -/
def encChar (c : Char) : List Nat :=
  [c.toNat % 256, c.toNat / 256 % 256, c.toNat / 256 ^ 2 % 256, c.toNat / 256 ^ 3 % 256]

/-- A string as a character count followed by the characters. -/
def encString (s : String) : List Nat :=
  encNat s.length ++ (s.data.map encChar).flatten

/-- Decode `count` characters of four bytes each. -/
def decChars : Nat → List Nat → Option (List Char × List Nat)
  | 0, bs => some ([], bs)
  | n + 1, b0 :: b1 :: b2 :: b3 :: rest =>
    let cp := b0 % 256 + b1 % 256 * 256 + b2 % 256 * 256 ^ 2 + b3 % 256 * 256 ^ 3
    if h : cp.isValidChar then
      match decChars n rest with
      | some (cs, r) => some (Char.ofNatAux cp h :: cs, r)
      | none => none
    else none
  | _ + 1, _ => none

/-- Decode `encString`. -/
def decString (bs : List Nat) : Option (String × List Nat) :=
  match decNat bs with
  | some (n, rest) =>
    match decChars n rest with
    | some (cs, r) => some (String.mk cs, r)
    | none => none
  | none => none

/-!
Modelled from the spec: the value model of the missing codec module
(`shm_rpc_bridge/_internal/data.py`, spec §4.3): null, boolean, integer,
floating-point (kept as its IEEE-754 double bit pattern; numeric float
semantics are not modelled), string, byte-string, ordered sequence and
string-keyed mapping, with recursion permitted.  Sequences and mappings are
mutual inductives so that all codec functions are structurally recursive.
-/
mutual
inductive Value where
  | null
  | bool (b : Bool)
  | int (i : Int)
  | float (bits : Nat)
  | str (s : String)
  | bytes (bs : List Nat)
  | list (vs : ValueList)
  | map (kvs : KVList)
inductive ValueList where
  | nil
  | cons (v : Value) (tl : ValueList)
inductive KVList where
  | nil
  | cons (k : String) (v : Value) (tl : KVList)
end

/-!
Modelled from the spec: serialization of one value for the missing codec
module.  The spec leaves the byte format open ("any self-describing textual
or binary format suffices"); this model uses a tag byte per value and a
`255` terminator for sequences and mappings.
-/
mutual
def encValue : Value → List Nat
  | .null => [0]
  | .bool b => [1, if b then 1 else 0]
  | .int i => 2 :: (if i < 0 then 1 else 0) :: encNat i.natAbs
  | .float bits => 3 :: encNat bits
  | .str s => 4 :: encString s
  | .bytes bs => 5 :: (encNat bs.length ++ bs.map (· % 256))
  | .list vs => 6 :: encValueList vs
  | .map kvs => 7 :: encKVList kvs
def encValueList : ValueList → List Nat
  | .nil => [255]
  | .cons v tl => encValue v ++ encValueList tl
def encKVList : KVList → List Nat
  | .nil => [255]
  | .cons k v tl => encString k ++ encValue v ++ encKVList tl
end

/-- Modelled from the spec: deserialization for the missing codec module.
The three decoders are produced together by recursion on a fuel bound on
the recursion depth; every recursive step consumes at least one input byte,
so fuel `2 * length + 2` always suffices. -/
def decoders : Nat →
    (List Nat → Option (Value × List Nat)) ×
    (List Nat → Option (ValueList × List Nat)) ×
    (List Nat → Option (KVList × List Nat))
  | 0 => (fun _ => none, fun _ => none, fun _ => none)
  | f + 1 =>
    let dv := (decoders f).1
    let dvl := (decoders f).2.1
    let dkv := (decoders f).2.2
    ( fun bs =>
        match bs with
        | [] => none
        | 0 :: rest => some (.null, rest)
        | 1 :: b :: rest => some (.bool (b ≠ 0), rest)
        | 2 :: s :: rest =>
          match decNat rest with
          | some (n, r) => some (.int (if s ≠ 0 then -(n : Int) else (n : Int)), r)
          | none => none
        | 3 :: rest =>
          match decNat rest with
          | some (n, r) => some (.float n, r)
          | none => none
        | 4 :: rest =>
          match decString rest with
          | some (s, r) => some (.str s, r)
          | none => none
        | 5 :: rest =>
          match decNat rest with
          | some (n, r) =>
            if n ≤ r.length then some (.bytes (r.take n), r.drop n) else none
          | none => none
        | 6 :: rest =>
          match dvl rest with
          | some (vs, r) => some (.list vs, r)
          | none => none
        | 7 :: rest =>
          match dkv rest with
          | some (kvs, r) => some (.map kvs, r)
          | none => none
        | _ => none,
      fun bs =>
        match bs with
        | 255 :: rest => some (.nil, rest)
        | bs =>
          match dv bs with
          | some (v, r) =>
            match dvl r with
            | some (tl, r2) => some (.cons v tl, r2)
            | none => none
          | none => none,
      fun bs =>
        match bs with
        | 255 :: rest => some (.nil, rest)
        | bs =>
          match decString bs with
          | some (k, r) =>
            match dv r with
            | some (v, r2) =>
              match dkv r2 with
              | some (tl, r3) => some (.cons k v tl, r3)
              | none => none
            | none => none
          | none => none )

/-- Decode one value with sufficient fuel. -/
def decValue (bs : List Nat) : Option (Value × List Nat) :=
  (decoders (2 * bs.length + 2)).1 bs

/-- Decode a key-value body with sufficient fuel. -/
def decKVList (bs : List Nat) : Option (KVList × List Nat) :=
  (decoders (2 * bs.length + 2)).2.2 bs

end ShmRpc

namespace ShmRpc

/-- Modelled from the spec: the request record of the missing codec module
(spec §3): `request_id`, `method`, and `params` (a string-keyed mapping). -/
structure RPCRequest where
  requestId : String
  method : String
  params : KVList

/-- Modelled from the spec: the response record of the missing codec module
(spec §3): `request_id` echoing the request, `result` (value or null), and
`error` (string or null). -/
structure RPCResponse where
  requestId : String
  result : Value
  error : Option String

/-- Modelled from the spec: `RPCCodec.encode_request` — request id, method,
then the parameter mapping. -/
def encodeRequest (r : RPCRequest) : List Nat :=
  encString r.requestId ++ encString r.method ++ encKVList r.params

/-- Modelled from the spec: `RPCCodec.decode_request`.  Trailing bytes are
rejected (the spec rejects unknown fields on decode). -/
def decodeRequest (bs : List Nat) : Except String RPCRequest :=
  match decString bs with
  | none => .error ("Failed to decode request")
  | some (rid, r1) =>
    match decString r1 with
    | none => .error ("Failed to decode request")
    | some (m, r2) =>
      match decKVList r2 with
      | none => .error ("Failed to decode request")
      | some (ps, r3) =>
        if r3 = [] then .ok ⟨rid, m, ps⟩
        else .error ("Failed to decode request")

/-- Modelled from the spec: `RPCCodec.encode_response` — request id, result
value, then `0` for a null error or `1` followed by the error string. -/
def encodeResponse (r : RPCResponse) : List Nat :=
  encString r.requestId ++ encValue r.result ++
    (match r.error with
     | none => [0]
     | some e => 1 :: encString e)

/-- Modelled from the spec: `RPCCodec.decode_response`.  Trailing bytes are
rejected. -/
def decodeResponse (bs : List Nat) : Except String RPCResponse :=
  match decString bs with
  | none => .error ("Failed to decode response")
  | some (rid, r1) =>
    match decValue r1 with
    | none => .error ("Failed to decode response")
    | some (v, r2) =>
      match r2 with
      | [0] => .ok ⟨rid, v, none⟩
      | 1 :: r3 =>
        match decString r3 with
        | some (e, []) => .ok ⟨rid, v, some e⟩
        | _ => .error ("Failed to decode response")
      | _ => .error ("Failed to decode response")

end ShmRpc

namespace ShmRpc

/-- State of an `RPCClient` (client.py): the owned transport and codec,
each `None` after `close`.  The codec object has no state of its own, so a
presence flag models it. -/
structure ClientState where
  transport : Option TransportState
  codec : Bool

/-- The response handling of `RPCClient.call` (client.py lines 73-83):
`if response.request_id != request_id: raise RPCError(...)` then
`if response.error: raise RPCMethodError(response.error)` — a Python
truthiness test, false for both `None` and the empty string — then
`return response.result`. -/
def clientHandleResponse (requestId : String) (resp : RPCResponse) :
    Except RPCFailure Value :=
  if resp.requestId ≠ requestId then
    .error (.rpcError ("Response ID mismatch: expected " ++ requestId
      ++ ", got " ++ resp.requestId))
  else
    match resp.error with
    | some e => if e ≠ "" then .error (.methodError e) else .ok resp.result
    | none => .ok resp.result

/-- `RPCClient.call` (client.py lines 40-83).  The freshly generated
`str(uuid.uuid4())` is the explicit `requestId` argument.  Encode and send
the request over the internal transport, receive and decode the response,
then run the response handling above. -/
def clientCall (c : ClientState) (requestId method : String) (ps : KVList) :
    ClientState × Except RPCFailure Value :=
  if ¬c.codec then
    (c, .error (.attributeError ("NoneType object has no attribute encode_request")))
  else
    match c.transport with
    | none =>
      (c, .error (.attributeError ("NoneType object has no attribute send_request")))
    | some t =>
      let reqData := encodeRequest ⟨requestId, method, ps⟩
      match sendRequestI t reqData with
      | (t1, .error e) => ({ c with transport := some t1 }, .error e)
      | (t1, .ok _) =>
        match receiveResponseI t1 with
        | (t2, .error e) => ({ c with transport := some t2 }, .error e)
        | (t2, .ok respData) =>
          match decodeResponse respData with
          | .error msg =>
            ({ c with transport := some t2 }, .error (.serializationError msg))
          | .ok resp =>
            ({ c with transport := some t2 }, clientHandleResponse requestId resp)

/-- `RPCClient.close` (client.py lines 85-91):
`try: self.transport.close() finally: self.transport = None; self.codec =
None`.  On an already-closed client `self.transport` is `None`, so
`None.close()` raises `AttributeError` (after the `finally` clause has run). -/
def clientClose (c : ClientState) (env : KernelEnv) :
    ClientState × KernelEnv × Option RPCFailure :=
  match c.transport with
  | some t =>
    let r := closeTransport t env
    (⟨none, false⟩, r.2, none)
  | none =>
    (⟨none, false⟩, env,
      some (.attributeError ("NoneType object has no attribute close")))

/-- A registered server method: Python callables either return a value or
raise; a raise carries the exception type name and message, from which
`_handle_request` builds `f"{type(e).__name__}: {str(e)}"`. -/
def MethodImpl : Type :=
  KVList → Except (String × String) Value

/-- State of an `RPCServer` (server.py): owned transport (legacy revision),
codec presence, the method registry, the running flag, the signal-handler
`_started` flag, and the kernel objects of its channel. -/
structure ServerState where
  transport : Option TransportState
  codec : Bool
  methods : List (String × MethodImpl)
  running : Bool
  sigStarted : Bool
  env : KernelEnv

/-- `RPCServer.close` (server.py lines 97-107) as the program actually
behaves.  It clears the running flag and then, when a transport is present,
calls `self.transport.close()` — but server.py imports the LEGACY transport
(`shm_rpc_bridge.transport`, line 14), whose class defines only `cleanup()`
and no `close()`, so the attribute access raises `AttributeError` before
anything is unlinked.  The `finally` clause still clears `self.transport`;
the exception propagates, so `self._signal_handler.stop()` is never
reached.  Only with no transport (e.g. a second close) does the method run
to completion and stop the signal handler.  The second component is the
exception escaping `close`, if any. -/
def serverClose (s : ServerState) : ServerState × Option RPCFailure :=
  match s.transport with
  | some _ =>
    ({ s with running := false, transport := none },
      some (.attributeError
        ("SharedMemoryTransport object has no attribute close")))
  | none =>
    ({ s with running := false, sigStarted := false }, none)

/-- The method dispatch of `RPCServer._handle_request` (server.py lines
150-172): unknown method raises `RPCError(f"Unknown method: ...")`, which —
like any exception from the method body — is captured into
`error = f"{type(e).__name__}: {str(e)}"`; success produces
`result` with `error=None`. -/
def serverComputeResponse (methods : List (String × MethodImpl))
    (req : RPCRequest) : RPCResponse :=
  match methods.lookup req.method with
  | none => ⟨req.requestId, .null, some ("RPCError: Unknown method: " ++ req.method)⟩
  | some f =>
    match f req.params with
    | .ok v => ⟨req.requestId, v, none⟩
    | .error e => ⟨req.requestId, .null, some (e.1 ++ ": " ++ e.2)⟩

/-- `RPCServer._handle_request` together with `_receive_request`
(server.py lines 134-183).  `_receive_request` absorbs `RPCTimeoutError`
into `None` (outcome `none` with no other effect); `decode_request` is
called OUTSIDE any try block, so a decode failure propagates; the response
send re-raises `RPCTimeoutError` and leaves any other transport exception
uncaught, so every send failure propagates.  The second component is the
exception escaping this loop iteration, if any. -/
def handleServerRequest (s : ServerState) : ServerState × Option RPCFailure :=
  match s.transport with
  | none => (s, some (.assertionError ("transport is None")))
  | some t =>
    match receiveRequestL t with
    | (t1, .error (.timeoutError _)) => ({ s with transport := some t1 }, none)
    | (t1, .error e) => ({ s with transport := some t1 }, some e)
    | (t1, .ok data) =>
      if ¬s.codec then
        ({ s with transport := some t1 }, some (.assertionError ("codec is None")))
      else
        match decodeRequest data with
        | .error msg =>
          ({ s with transport := some t1 }, some (.serializationError msg))
        | .ok req =>
          let resp := serverComputeResponse s.methods req
          let respData := encodeResponse resp
          match sendResponseL t1 respData with
          | (t2, .ok _) => ({ s with transport := some t2 }, none)
          | (t2, .error e) => ({ s with transport := some t2 }, some e)

/-- The dispatch loop of `RPCServer.start` (server.py lines 77-95), with
explicit fuel: `while self._running: self._handle_request()`; an escaping
exception stops the loop; on every exit path the `finally` clause runs
`self.close()`.  Per Python semantics, an exception raised inside the
`finally` clause — here `serverClose` raising `AttributeError` whenever a
transport is present — REPLACES the exception that was propagating.  The
second component is the exception `start` raises, if any. -/
def serverRun : Nat → ServerState → ServerState × Option RPCFailure
  | 0, s => (s, none)
  | n + 1, s =>
    if s.running then
      match handleServerRequest s with
      | (s1, none) => serverRun n s1
      | (s1, some e) =>
        match serverClose s1 with
        | (s2, some e2) => (s2, some e2)
        | (s2, none) => (s2, some e)
    else
      serverClose s

end ShmRpc

namespace ShmRpc

/-! Helper lemmas shared by several claims. -/

theorem packI_length (n : Nat) : (packI n).length = headerSize := by
  simp [packI, headerSize]

theorem writeFrame_take (buf data : List Nat) :
    (writeFrame buf data).take headerSize = packI data.length := by
  rw [writeFrame, List.append_assoc, ← packI_length data.length, List.take_left]

theorem writeFrame_drop_take (buf data : List Nat) :
    ((writeFrame buf data).drop headerSize).take data.length = data := by
  rw [writeFrame, List.append_assoc, ← packI_length data.length, List.drop_left,
    List.take_left]

/-- A small sample transport (buffer size 8, fresh channel) used by the
concrete witnesses. -/
def sampleT8 : TransportState :=
  { bufferSize := 8, hasTimeout := true, owner := false,
    handles := Handles.all, req := freshSlot 8, resp := freshSlot 8 }

/-- C5.  Oversized-send rejection: a payload with `len(P) > B − 4` makes
`send_request`/`send_response` (both transport revisions) fail with
`RPCTransportError` — not `RPCTimeoutError` — and the transport state (both
semaphore pairs and both buffers) is returned unchanged: the guard runs
before any semaphore operation. -/
theorem oversizedSendRejected (t : TransportState) (data : List Nat)
    (h : (data.length : Int) > (t.bufferSize : Int) - (headerSize : Int)) :
    sendRequestI t data = (t, .error (.transportError ("Message too large: "
        ++ toString data.length ++ " bytes exceeds buffer size"))) ∧
    sendResponseI t data = (t, .error (.transportError ("Message too large: "
        ++ toString data.length ++ " bytes exceeds buffer size"))) ∧
    sendRequestL t data = (t, .error (.transportError ("Message too large: "
        ++ toString data.length ++ " bytes exceeds buffer size"))) ∧
    sendResponseL t data = (t, .error (.transportError ("Message too large: "
        ++ toString data.length ++ " bytes exceeds buffer size"))) := by
  refine ⟨?_, ?_, ?_, ?_⟩
  · unfold sendRequestI slotSend
    rw [if_pos h]
  · unfold sendResponseI slotSend
    rw [if_pos h]
  · unfold sendRequestL sendRequestI slotSend
    rw [if_pos h]
  · unfold sendResponseL sendResponseI slotSend
    rw [if_pos h]

theorem oversizedSendRejected_witness :
    (((List.replicate 5 1).length : Int) > (sampleT8.bufferSize : Int)
        - (headerSize : Int)) ∧
    sendRequestI sampleT8 (List.replicate 5 1) = (sampleT8,
      .error (.transportError ("Message too large: 5 bytes exceeds buffer size"))) := by
  refine ⟨by decide, ?_⟩
  exact (oversizedSendRejected sampleT8 (List.replicate 5 1) (by decide)).1

end ShmRpc

namespace ShmRpc

theorem slotSend_ok (B : Nat) (ht semsOk mmapOk : Bool) (noun : String)
    (slot : SlotState) (data : List Nat)
    (h : (slotSend B ht semsOk mmapOk noun slot data).2 = .ok ()) :
    (slotSend B ht semsOk mmapOk noun slot data).1 =
      { slot with emptySem := slot.emptySem - 1,
                  fullSem := slot.fullSem + 1,
                  buf := writeFrame slot.buf data } ∧
      data.length < 2 ^ 32 := by
  unfold slotSend at h ⊢
  split_ifs at h ⊢ <;> simp_all

/-- C7.  Little-endian length header: whenever a send succeeds (either
direction, either transport revision), the first 4 bytes of the written
buffer are `struct.pack("I", L)` — the little-endian 32-bit encoding on the
supported platforms — where `L` is exactly the byte length of the payload
written after the header, and `L` is 32-bit representable. -/
theorem sendWritesLittleEndianHeader :
    (∀ (t t' : TransportState) (data : List Nat),
      sendRequestI t data = (t', .ok ()) →
      t'.req.buf.take headerSize = packI data.length ∧
      (t'.req.buf.drop headerSize).take data.length = data ∧
      data.length < 2 ^ 32) ∧
    (∀ (t t' : TransportState) (data : List Nat),
      sendResponseI t data = (t', .ok ()) →
      t'.resp.buf.take headerSize = packI data.length ∧
      (t'.resp.buf.drop headerSize).take data.length = data ∧
      data.length < 2 ^ 32) ∧
    (∀ (t t' : TransportState) (data : List Nat),
      sendRequestL t data = (t', .ok ()) →
      t'.req.buf.take headerSize = packI data.length ∧
      (t'.req.buf.drop headerSize).take data.length = data ∧
      data.length < 2 ^ 32) ∧
    (∀ (t t' : TransportState) (data : List Nat),
      sendResponseL t data = (t', .ok ()) →
      t'.resp.buf.take headerSize = packI data.length ∧
      (t'.resp.buf.drop headerSize).take data.length = data ∧
      data.length < 2 ^ 32) := by
  have core : ∀ (B : Nat) (ht sOk mOk : Bool) (noun : String)
      (slot : SlotState) (data : List Nat),
      (slotSend B ht sOk mOk noun slot data).2 = .ok () →
      (slotSend B ht sOk mOk noun slot data).1.buf.take headerSize = packI data.length ∧
      ((slotSend B ht sOk mOk noun slot data).1.buf.drop headerSize).take data.length
        = data ∧
      data.length < 2 ^ 32 := by
    intro B ht sOk mOk noun slot data h
    obtain ⟨h1, h2⟩ := slotSend_ok B ht sOk mOk noun slot data h
    rw [h1]
    exact ⟨writeFrame_take _ _, writeFrame_drop_take _ _, h2⟩
  refine ⟨?_, ?_, ?_, ?_⟩
  · intro t t' data h
    have h2 : (slotSend t.bufferSize t.hasTimeout
        (t.handles.reqEmptySem && t.handles.reqFullSem) t.handles.reqMmap
        ("request") t.req data).2 = .ok () := congrArg Prod.snd h
    have h1 : (sendRequestI t data).1 = t' := by rw [h]
    rw [← h1]
    exact core _ _ _ _ _ _ _ h2
  · intro t t' data h
    have h2 : (slotSend t.bufferSize t.hasTimeout
        (t.handles.respEmptySem && t.handles.respFullSem) t.handles.respMmap
        ("response") t.resp data).2 = .ok () := congrArg Prod.snd h
    have h1 : (sendResponseI t data).1 = t' := by rw [h]
    rw [← h1]
    exact core _ _ _ _ _ _ _ h2
  · intro t t' data h
    have h2 : (slotSend t.bufferSize t.hasTimeout
        (t.handles.reqEmptySem && t.handles.reqFullSem) t.handles.reqMmap
        ("request") t.req data).2 = .ok () := congrArg Prod.snd h
    have h1 : (sendRequestL t data).1 = t' := by rw [h]
    rw [← h1]
    exact core _ _ _ _ _ _ _ h2
  · intro t t' data h
    have h2 : (slotSend t.bufferSize t.hasTimeout
        (t.handles.respEmptySem && t.handles.respFullSem) t.handles.respMmap
        ("response") t.resp data).2 = .ok () := congrArg Prod.snd h
    have h1 : (sendResponseL t data).1 = t' := by rw [h]
    rw [← h1]
    exact core _ _ _ _ _ _ _ h2

/-- The transport state after the witness send below. -/
def sentT8 : TransportState := (sendRequestI sampleT8 [7, 8]).1

theorem sendWritesLittleEndianHeader_witness :
    sendRequestI sampleT8 [7, 8] = (sentT8, .ok ()) ∧
    sentT8.req.buf.take headerSize = packI 2 ∧
    (sentT8.req.buf.drop headerSize).take 2 = [7, 8] ∧ 2 < 2 ^ 32 := by
  have h : sendRequestI sampleT8 [7, 8] = (sentT8, .ok ()) := rfl
  exact ⟨h, sendWritesLittleEndianHeader.1 sampleT8 sentT8 [7, 8] h⟩

end ShmRpc

namespace ShmRpc

/-- C9.  Creator-only unlinker: closing an opener (`owner = False`) leaves
the six kernel objects of the channel exactly as they were (both in the
internal `close` and in the legacy `cleanup`), while closing a creator with
its handles intact removes all six.  Openers never unlink. -/
theorem creatorOnlyUnlinker :
    (∀ (t : TransportState) (env : KernelEnv), t.owner = false →
      (closeTransport t env).2 = env ∧ (cleanupTransportL t env).2 = env) ∧
    (∀ (t : TransportState) (env : KernelEnv), t.owner = true →
      t.handles = Handles.all →
      (closeTransport t env).2 = KernelEnv.empty ∧
      (cleanupTransportL t env).2 = KernelEnv.empty) := by
  constructor
  · intro t env h
    constructor <;>
      simp [cleanupTransportL, closeTransport, h]
  · intro t env howner hall
    obtain ⟨a, b, c, d, e, f⟩ := env
    constructor <;>
      simp [cleanupTransportL, closeTransport, howner, hall, Handles.all,
        KernelEnv.empty]

theorem creatorOnlyUnlinker_witness :
    sampleT8.owner = false ∧
    (closeTransport sampleT8 KernelEnv.full).2 = KernelEnv.full ∧
    TransportState.owner { sampleT8 with owner := true } = true ∧
    TransportState.handles { sampleT8 with owner := true } = Handles.all ∧
    (closeTransport { sampleT8 with owner := true } KernelEnv.full).2 =
      KernelEnv.empty := by
  refine ⟨rfl, (creatorOnlyUnlinker.1 sampleT8 KernelEnv.full rfl).1, rfl, rfl, ?_⟩
  exact (creatorOnlyUnlinker.2 { sampleT8 with owner := true } KernelEnv.full rfl rfl).1

/-- C10.  Constructor failure atomicity: for every mode (creator/opener) and
every prior state of the six kernel objects, `_initialize` either returns a
fully initialized transport (all eight handle fields set), or fails with an
`RPCTransportError` after rolling the kernel environment back to exactly its
prior state — a creator unlinks whatever it had already created, an opener
changes nothing.  A partially initialized transport is never returned. -/
theorem initFailureAtomicity (owner : Bool) (bufferSize : Nat)
    (hasTimeout : Bool) (chanReq chanResp : SlotState) (env : KernelEnv) :
    match initTransport owner bufferSize hasTimeout chanReq chanResp env with
    | (.ok t, _) => t.handles = Handles.all
    | (.error e, env2) => env2 = env ∧ e.isTransport = true := by
  obtain ⟨a, b, c, d, e, f⟩ := env
  cases owner <;> cases a <;> cases b <;> cases c <;> cases d <;> cases e <;>
      cases f <;>
    first
      | exact ⟨rfl, rfl⟩
      | rfl

end ShmRpc

namespace ShmRpc

/-- C6 (code bug).  Idempotent close holds only at the transport layer:
`SharedMemoryTransport.close` is idempotent (a second close is a no-op on
the instance state and the kernel objects).  `RPCClient.close` sets
`self.transport = None` and then unconditionally calls
`self.transport.close()` on the next invocation, so the SECOND client close
raises `AttributeError`.  `RPCServer.close` is worse: server.py imports the
legacy transport, which has no `close()` method, so the FIRST server close
on a live server raises `AttributeError`, unlinks none of the kernel
objects and skips the signal-handler stop; only the second close (transport
already dropped) completes without raising. -/
theorem closeIdempotence :
    (∀ (t : TransportState) (env : KernelEnv),
      closeTransport (closeTransport t env).1 (closeTransport t env).2 =
        closeTransport t env) ∧
    (∀ (s : ServerState) (t : TransportState), s.transport = some t →
      (serverClose s).2 =
        some (.attributeError
          ("SharedMemoryTransport object has no attribute close")) ∧
      (serverClose s).1.env = s.env ∧
      (serverClose s).1.sigStarted = s.sigStarted ∧
      (serverClose (serverClose s).1).2 = none) ∧
    (clientClose (clientClose ⟨some sampleT8, true⟩ KernelEnv.full).1
        (clientClose ⟨some sampleT8, true⟩ KernelEnv.full).2.1).2.2 =
      some (.attributeError ("NoneType object has no attribute close")) := by
  refine ⟨?_, ?_, rfl⟩
  · intro t env
    simp [closeTransport, Handles.none]
  · intro s t hs
    simp [serverClose, hs]

end ShmRpc

namespace ShmRpc

theorem unpackI_packI (n : Nat) (h : n < 2 ^ 32) : unpackI (packI n) = n := by
  simp only [packI, unpackI]
  omega

/-- C3 (amended).  Receive-side size validation holds on the internal
transport revision (`_internal/transport.py`, the one `RPCClient` uses): if
the 4-byte header read back holds `L > B − 4`, both receives fail with
`RPCTransportError` carrying "Invalid message size" — never a timeout — and
return no (truncated) data.  The legacy `shm_rpc_bridge/transport.py`
revision performs no such validation and returns truncated data (see the
counterexample below). -/
theorem receiveValidatesSize (t : TransportState) (L : Nat)
    (hhand : t.handles = Handles.all)
    (hL32 : L < 2 ^ 32)
    (hhdrReq : t.req.buf.take headerSize = packI L)
    (hhdrResp : t.resp.buf.take headerSize = packI L)
    (hfullReq : 0 < t.req.fullSem) (hfullResp : 0 < t.resp.fullSem)
    (hL : (L : Int) > (t.bufferSize : Int) - (headerSize : Int)) :
    receiveRequestI t =
      ({ t with req := { t.req with fullSem := t.req.fullSem - 1 } },
        .error (.transportError ("Failed to receive request: Invalid message size: "
          ++ toString L))) ∧
    receiveResponseI t =
      ({ t with resp := { t.resp with fullSem := t.resp.fullSem - 1 } },
        .error (.transportError ("Failed to receive response: Invalid message size: "
          ++ toString L))) := by
  have hL4 : (t.bufferSize : Int) - 4 < (L : Int) := hL
  have hp4 : (packI L).length = 4 := packI_length L
  constructor
  · unfold receiveRequestI slotRecv
    have hq : List.take 4 t.req.buf = packI L := hhdrReq
    have hq4 : min 4 t.req.buf.length = 4 := by
      have h := congrArg List.length hq
      simpa [packI] using h
    have hlen : ¬ t.req.buf.length < 4 := by omega
    simp [hhand, Handles.all, hfullReq, hq, hlen, unpackI_packI L hL32, hL4,
      headerSize, hp4]
  · unfold receiveResponseI slotRecv
    have hq : List.take 4 t.resp.buf = packI L := hhdrResp
    have hq4 : min 4 t.resp.buf.length = 4 := by
      have h := congrArg List.length hq
      simpa [packI] using h
    have hlen : ¬ t.resp.buf.length < 4 := by omega
    simp [hhand, Handles.all, hfullResp, hq, hlen, unpackI_packI L hL32, hL4,
      headerSize, hp4]

/-- A transport on whose channel both buffers carry the header `L = 5` with
`B = 8`, so `L > B − 4`. -/
def badHdrT8 : TransportState :=
  { bufferSize := 8, hasTimeout := true, owner := false, handles := Handles.all,
    req := ⟨0, 1, [5, 0, 0, 0, 9, 9, 9, 9]⟩,
    resp := ⟨0, 1, [5, 0, 0, 0, 9, 9, 9, 9]⟩ }

theorem receiveValidatesSize_witness :
    badHdrT8.handles = Handles.all ∧
    badHdrT8.req.buf.take headerSize = packI 5 ∧
    ((5 : Int) > (badHdrT8.bufferSize : Int) - (headerSize : Int)) ∧
    receiveRequestI badHdrT8 =
      ({ badHdrT8 with req := { badHdrT8.req with fullSem := 0 } },
        .error (.transportError ("Failed to receive request: Invalid message size: 5"))) := by
  refine ⟨rfl, rfl, by decide, ?_⟩
  exact (receiveValidatesSize badHdrT8 5 rfl (by decide) rfl rfl (by decide)
    (by decide) (by decide)).1

/-- C3 counterexample to the claim as stated: the legacy transport revision
(used by `RPCServer`) accepts the header `L = 5 > B − 4 = 4` and returns the
4 bytes that fit — truncated data, no `RPCTransportError`. -/
theorem receiveValidatesSize_counterexample :
    unpackI (badHdrT8.req.buf.take headerSize) = 5 ∧
    ((5 : Int) > (badHdrT8.bufferSize : Int) - (headerSize : Int)) ∧
    receiveRequestL badHdrT8 =
      ({ badHdrT8 with req := ⟨1, 0, badHdrT8.req.buf⟩ }, .ok [9, 9, 9, 9]) ∧
    List.length [9, 9, 9, 9] < 5 := by
  exact ⟨rfl, by decide, rfl, by decide⟩

end ShmRpc

namespace ShmRpc

/-- C1 (amended).  Framing round-trip on the internal transport: for a
payload with `len(P) ≤ B − 4` that is 32-bit representable
(`len(P) < 2 ^ 32`), a successful `send_request` followed by
`receive_request` on the same channel returns exactly the payload,
byte-for-byte (and likewise for `send_response`/`receive_response`),
including the zero-length payload.  Without the `len(P) < 2 ^ 32` bound the
claim fails: `struct.pack("I", size)` raises (see the counterexample). -/
theorem framingRoundTrip (t : TransportState) (data : List Nat)
    (hhand : t.handles = Handles.all)
    (hreq : 0 < t.req.emptySem) (hresp : 0 < t.resp.emptySem)
    (hlen : (data.length : Int) ≤ (t.bufferSize : Int) - (headerSize : Int))
    (h32 : data.length < 2 ^ 32) :
    (∃ t1 t2, sendRequestI t data = (t1, .ok ()) ∧
      receiveRequestI t1 = (t2, .ok data)) ∧
    (∃ t1 t2, sendResponseI t data = (t1, .ok ()) ∧
      receiveResponseI t1 = (t2, .ok data)) := by
  have hlen2 : ¬ ((data.length : Int) > (t.bufferSize : Int) - (headerSize : Int)) :=
    not_lt.mpr hlen
  have h32n : ¬ ((4294967296 : Nat) ≤ data.length) := not_le.mpr h32
  have hlen2n : ¬ ((t.bufferSize : Int) - 4 < (data.length : Int)) := hlen2
  constructor
  · refine ⟨{ t with req := ⟨t.req.emptySem - 1, t.req.fullSem + 1,
        writeFrame t.req.buf data⟩ },
      { t with req := ⟨t.req.emptySem - 1 + 1, t.req.fullSem + 1 - 1,
        writeFrame t.req.buf data⟩ }, ?_, ?_⟩
    · unfold sendRequestI slotSend
      simp [hhand, Handles.all, hreq, hlen2, h32n]
    · unfold receiveRequestI slotRecv
      have hw4 : List.take 4 (writeFrame t.req.buf data) = packI data.length :=
        writeFrame_take _ _
      have hwlen : ¬ ((writeFrame t.req.buf data).length < 4) := by
        simp [writeFrame, packI]
      have hdt : List.take data.length (List.drop 4 (writeFrame t.req.buf data))
          = data := writeFrame_drop_take _ _
      simp [hhand, Handles.all, hw4, hwlen, unpackI_packI data.length h32,
        hlen2n, hdt, headerSize, packI_length]
  · refine ⟨{ t with resp := ⟨t.resp.emptySem - 1, t.resp.fullSem + 1,
        writeFrame t.resp.buf data⟩ },
      { t with resp := ⟨t.resp.emptySem - 1 + 1, t.resp.fullSem + 1 - 1,
        writeFrame t.resp.buf data⟩ }, ?_, ?_⟩
    · unfold sendResponseI slotSend
      simp [hhand, Handles.all, hresp, hlen2, h32n]
    · unfold receiveResponseI slotRecv
      have hw4 : List.take 4 (writeFrame t.resp.buf data) = packI data.length :=
        writeFrame_take _ _
      have hwlen : ¬ ((writeFrame t.resp.buf data).length < 4) := by
        simp [writeFrame, packI]
      have hdt : List.take data.length (List.drop 4 (writeFrame t.resp.buf data))
          = data := writeFrame_drop_take _ _
      simp [hhand, Handles.all, hw4, hwlen, unpackI_packI data.length h32,
        hlen2n, hdt, headerSize, packI_length]

theorem framingRoundTrip_witness :
    (sampleT8.handles = Handles.all ∧ 0 < sampleT8.req.emptySem ∧
      0 < sampleT8.resp.emptySem ∧
      (((List.length [1, 2, 3] : Nat) : Int) ≤ (sampleT8.bufferSize : Int)
        - (headerSize : Int)) ∧ List.length [1, 2, 3] < 2 ^ 32 ∧
      ((0 : Int) ≤ (sampleT8.bufferSize : Int) - (headerSize : Int))) ∧
    (∃ t1 t2, sendRequestI sampleT8 [1, 2, 3] = (t1, .ok ()) ∧
      receiveRequestI t1 = (t2, .ok [1, 2, 3])) ∧
    (∃ t1 t2, sendRequestI sampleT8 [] = (t1, .ok ()) ∧
      receiveRequestI t1 = (t2, .ok [])) := by
  refine ⟨⟨rfl, by decide, by decide, by decide, by decide, by decide⟩, ?_, ?_⟩
  · exact (framingRoundTrip sampleT8 [1, 2, 3] rfl (by decide) (by decide)
      (by decide) (by decide)).1
  · exact (framingRoundTrip sampleT8 [] rfl (by decide) (by decide)
      (by decide) (by decide)).1

end ShmRpc

namespace ShmRpc

/-- A channel whose buffer size exceeds `2 ^ 32 + 4` bytes. -/
def bigB : Nat := 2 ^ 32 + 8

/-- Fresh transport on that channel. -/
def bigT : TransportState :=
  { bufferSize := bigB, hasTimeout := true, owner := false,
    handles := Handles.all, req := freshSlot bigB, resp := freshSlot bigB }

/-- A payload of `2 ^ 32` zero bytes: within `B − 4`, but too long for the
4-byte header. -/
def bigData : List Nat := List.replicate (2 ^ 32) 0

/-- C1 counterexample to the claim as stated: with `B = 2 ^ 32 + 8` the
payload of `2 ^ 32` bytes satisfies `len(P) ≤ B − 4`, yet the round trip
does not return `P`: `struct.pack("I", size)` raises inside `send_request`
(wrapped as `RPCTransportError`, with the empty slot already consumed), and
the subsequent `receive_request` times out. -/
theorem framingRoundTrip_counterexample :
    ((bigData.length : Int) ≤ (bigT.bufferSize : Int) - (headerSize : Int)) ∧
    sendRequestI bigT bigData =
      ({ bigT with req := ⟨0, 0, bigT.req.buf⟩ },
        .error (.transportError
          ("Failed to send request: struct error: argument out of range"))) ∧
    (receiveRequestI { bigT with req := ⟨0, 0, bigT.req.buf⟩ }).2 =
      .error (.timeoutError ("Timeout receiving request")) := by
  refine ⟨?_, ?_, ?_⟩
  · simp only [bigData, bigT, bigB, headerSize, List.length_replicate]
    norm_num
  · unfold sendRequestI slotSend
    simp only [bigData, bigT, bigB, headerSize, freshSlot, Handles.all,
      List.length_replicate]
    norm_num
    rfl
  · unfold receiveRequestI slotRecv
    simp only [bigT, bigB, headerSize, freshSlot, Handles.all]
    norm_num
    rfl

end ShmRpc

namespace ShmRpc

/-- C2 (amended).  Client call contract, as the code implements it: if the
decoded response's `request_id` differs from the freshly generated one, the
call fails with the base `RPCError` ("Response ID mismatch", the spec's
Protocol kind); otherwise, if the error field is non-null AND non-empty
(the code tests Python truthiness, `if response.error:`), the call fails
with `RPCMethodError` carrying that error; otherwise — including the
non-null empty-string error — the call returns the response's result. -/
theorem clientCallContract (requestId : String) (resp : RPCResponse) :
    (resp.requestId ≠ requestId →
      clientHandleResponse requestId resp =
        .error (.rpcError ("Response ID mismatch: expected " ++ requestId
          ++ ", got " ++ resp.requestId))) ∧
    (∀ e : String, resp.requestId = requestId → resp.error = some e → e ≠ "" →
      clientHandleResponse requestId resp = .error (.methodError e)) ∧
    (resp.requestId = requestId → (resp.error = none ∨ resp.error = some "") →
      clientHandleResponse requestId resp = .ok resp.result) := by
  refine ⟨?_, ?_, ?_⟩
  · intro h
    simp [clientHandleResponse, h]
  · intro e hid herr hne
    simp [clientHandleResponse, hid, herr, hne]
  · intro hid herr
    rcases herr with h | h <;> simp [clientHandleResponse, hid, h]

theorem clientCallContract_witness :
    ((RPCResponse.mk "other" (.int 1) none).requestId ≠ "r" ∧
      clientHandleResponse "r" (RPCResponse.mk "other" (.int 1) none) =
        .error (.rpcError ("Response ID mismatch: expected r, got other"))) ∧
    ((RPCResponse.mk "r" .null (some "boom")).requestId = "r" ∧
      clientHandleResponse "r" (RPCResponse.mk "r" .null (some "boom")) =
        .error (.methodError "boom")) ∧
    ((RPCResponse.mk "r" (.int 7) none).requestId = "r" ∧
      clientHandleResponse "r" (RPCResponse.mk "r" (.int 7) none) =
        .ok (.int 7)) := by
  refine ⟨⟨by decide, ?_⟩, ⟨rfl, ?_⟩, ⟨rfl, ?_⟩⟩
  · have h := (clientCallContract "r" (RPCResponse.mk "other" (.int 1) none)).1
      (by decide)
    simpa using h
  · exact (clientCallContract "r" (RPCResponse.mk "r" .null (some "boom"))).2.1
      ("boom") rfl rfl (by decide)
  · exact (clientCallContract "r" (RPCResponse.mk "r" (.int 7) none)).2.2
      rfl (Or.inl rfl)

/-- A response whose error field is the non-null empty string, left in the
response slot of the channel before the call. -/
def staleResp : RPCResponse := ⟨"r", .int 5, some ""⟩

/-- A client whose channel already carries `staleResp` (encoded and framed)
in the response buffer. -/
def staleClient : ClientState :=
  ⟨some
    { bufferSize := 64, hasTimeout := true, owner := false,
      handles := Handles.all, req := freshSlot 64,
      resp := ⟨0, 1, writeFrame (List.replicate 64 0) (encodeResponse staleResp)⟩ },
    true⟩

/-- C2 counterexample to the claim as stated: a full `RPCClient.call` whose
decoded response has `error = some ""` — non-null, so the claim requires a
RemoteMethod failure — returns the result instead, because the code tests
truthiness (`if response.error:`) and the empty string is falsy. -/
theorem clientCallContract_counterexample :
    staleResp.error = some "" ∧ (some "" ≠ (none : Option String)) ∧
    decodeResponse (encodeResponse staleResp) = .ok staleResp ∧
    (clientCall staleClient "r" "m" KVList.nil).2 = .ok (.int 5) := by
  exact ⟨rfl, by simp, rfl, rfl⟩

end ShmRpc

namespace ShmRpc

/-- A server transport whose request slot holds a framed 1-byte message
`[99]`, which fails to decode as a request. -/
def badReqT : TransportState :=
  { bufferSize := 16, hasTimeout := true, owner := true, handles := Handles.all,
    req := ⟨0, 1, writeFrame (List.replicate 16 0) [99]⟩,
    resp := ⟨1, 0, List.replicate 16 0⟩ }

/-- A running server with that transport and an empty registry. -/
def badReqServer : ServerState :=
  { transport := some badReqT, codec := true, methods := [], running := true,
    sigStarted := true, env := KernelEnv.full }

/-- C4 (code bug in `RPCServer._handle_request`): `decode_request` is called
outside the try block, so a request whose bytes fail to decode makes the
decode exception escape `_handle_request` — no error response is synthesized
or sent (the response slot is untouched) — and the dispatch loop stops.  The
claim (and spec §4.5/§7) says the server should send a response with a
"Decode: …" error and continue.  What `start` ultimately raises is not even
the decode error: the `finally` clause runs `self.close()`, whose call to
the legacy transport's nonexistent `close()` raises `AttributeError`,
replacing the decode exception; the kernel objects are never unlinked and
the signal handler is never stopped. -/
theorem decodeFailureStopsServer :
    decodeRequest [99] = .error ("Failed to decode request") ∧
    (handleServerRequest badReqServer).2 =
      some (.serializationError ("Failed to decode request")) ∧
    ((handleServerRequest badReqServer).1.transport.map (fun t => t.resp)) =
      some ⟨1, 0, List.replicate 16 0⟩ ∧
    (serverRun 3 badReqServer).2 =
      some (.attributeError
        ("SharedMemoryTransport object has no attribute close")) ∧
    (serverRun 3 badReqServer).1.transport = none ∧
    (serverRun 3 badReqServer).1.running = false ∧
    (serverRun 3 badReqServer).1.env = KernelEnv.full ∧
    (serverRun 3 badReqServer).1.sigStarted = true := by
  exact ⟨rfl, rfl, rfl, rfl, rfl, rfl, rfl, rfl⟩

end ShmRpc


namespace ShmRpc

/-- The request slot after a successful `receive_request`: `*_full`
decremented by the wait, `*_empty` posted, buffer unchanged. -/
def consumedReq (t : TransportState) : TransportState :=
  { t with req := ⟨t.req.emptySem + 1, t.req.fullSem - 1, t.req.buf⟩ }

theorem serverEta (s : ServerState) (t : TransportState)
    (h : s.transport = some t) :
    ({ s with transport := some t } : ServerState) = s := by
  obtain ⟨tr, co, me, ru, si, env⟩ := s
  subst h
  rfl

/-- C8.  Dispatch-loop timeout policy.  (1) A `Timeout` on `receive_request`
is absorbed: the iteration returns with the server state unchanged — nothing
is sent — and while the running flag holds the loop simply retries.  (2) A
`Timeout` on `send_response` (response slot still full, bounded timeout)
propagates out of the iteration; the loop stops, the server ends not
running with its transport dropped.  (What `start` then raises is the
`AttributeError` from the broken `finally: self.close()` — the legacy
transport has no `close()` — which replaces the timeout; the timeout itself
is the exception that escaped the loop.) -/
theorem dispatchLoopTimeoutPolicy :
    (∀ (s : ServerState) (t : TransportState) (n : Nat),
      s.transport = some t → s.running = true →
      (t.handles.reqFullSem && t.handles.reqEmptySem) = true →
      t.req.fullSem = 0 → t.hasTimeout = true →
      handleServerRequest s = (s, none) ∧
      serverRun (n + 1) s = serverRun n s) ∧
    (∀ (s : ServerState) (t : TransportState) (r : RPCRequest) (d : List Nat)
        (n : Nat),
      s.transport = some t → s.running = true → s.codec = true →
      t.handles = Handles.all → t.hasTimeout = true →
      0 < t.req.fullSem →
      t.req.buf.take 4 = packI d.length →
      (t.req.buf.drop 4).take d.length = d →
      d.length < 2 ^ 32 →
      decodeRequest d = .ok r →
      (((encodeResponse (serverComputeResponse s.methods r)).length : Int)
        ≤ (t.bufferSize : Int) - (headerSize : Int)) →
      t.resp.emptySem = 0 →
      handleServerRequest s =
        ({ s with transport := some (consumedReq t) },
          some (.timeoutError ("Timeout sending response"))) ∧
      (serverRun (n + 1) s).1.running = false ∧
      (serverRun (n + 1) s).1.transport = none ∧
      (serverRun (n + 1) s).2 =
        some (.attributeError
          ("SharedMemoryTransport object has no attribute close"))) := by
  constructor
  · intro s t n hs hrun hsem hfull hht
    have hrecv : receiveRequestL t =
        (t, .error (.timeoutError ("Timeout receiving request"))) := by
      unfold receiveRequestL slotRecv
      simp [hsem, hfull, hht]
      rw [← hht]
    have hh : handleServerRequest s = (s, none) := by
      unfold handleServerRequest
      rw [hs]
      simp only [hrecv]
      rw [serverEta s t hs]
    refine ⟨hh, ?_⟩
    conv_lhs => rw [serverRun]
    simp [hrun, hh]
  · intro s t r d n hs hrun hcodec hhand hht hfull htake hdrop h32 hdec hsize
      hempty
    have hq4 : min 4 t.req.buf.length = 4 := by
      have h := congrArg List.length htake
      simpa [packI] using h
    have hlen : ¬ t.req.buf.length < 4 := by omega
    have hrecv : receiveRequestL t = (consumedReq t, .ok d) := by
      unfold receiveRequestL slotRecv consumedReq
      simp [hhand, Handles.all, hfull, htake, hlen,
        unpackI_packI d.length h32, hdrop, headerSize, packI_length]
    have hsz : ¬ (((encodeResponse (serverComputeResponse s.methods r)).length : Int)
        > (t.bufferSize : Int) - (headerSize : Int)) := not_lt.mpr hsize
    have hsend : sendResponseL (consumedReq t)
        (encodeResponse (serverComputeResponse s.methods r)) =
        (consumedReq t, .error (.timeoutError ("Timeout sending response"))) := by
      unfold sendResponseL sendResponseI slotSend consumedReq
      simp [hhand, Handles.all, hempty, hht, hsz]
    have hh : handleServerRequest s =
        ({ s with transport := some (consumedReq t) },
          some (.timeoutError ("Timeout sending response"))) := by
      unfold handleServerRequest
      rw [hs]
      simp only [hrecv, hcodec, Bool.not_true, Bool.false_eq_true, if_false,
        hdec, hsend]
      simp
    have hloop : serverRun (n + 1) s =
        ({ { s with transport := some (consumedReq t) } with
            running := false, transport := none },
          some (.attributeError
            ("SharedMemoryTransport object has no attribute close"))) := by
      conv_lhs => rw [serverRun]
      simp [hrun, hh, serverClose]
    refine ⟨hh, ?_, ?_, ?_⟩
    · rw [hloop]
    · rw [hloop]
    · rw [hloop]

end ShmRpc

namespace ShmRpc

/-- A running server whose request slot is empty (receive will time out). -/
def idleServerT : TransportState :=
  { bufferSize := 16, hasTimeout := true, owner := true, handles := Handles.all,
    req := freshSlot 16, resp := freshSlot 16 }

/-- See `idleServerT`. -/
def idleServer : ServerState :=
  { transport := some idleServerT, codec := true, methods := [], running := true,
    sigStarted := true, env := KernelEnv.full }

/-- The request sent to the stuck server below. -/
def stuckReq : RPCRequest := ⟨"i", "m", KVList.nil⟩

/-- A server transport with a decodable request waiting and the response
slot still full (`resp_empty = 0`): sending the response will time out. -/
def stuckT : TransportState :=
  { bufferSize := 256, hasTimeout := true, owner := true, handles := Handles.all,
    req := ⟨0, 1, writeFrame (List.replicate 256 0) (encodeRequest stuckReq)⟩,
    resp := ⟨0, 1, List.replicate 256 0⟩ }

/-- See `stuckT`. -/
def stuckServer : ServerState :=
  { transport := some stuckT, codec := true, methods := [], running := true,
    sigStarted := true, env := KernelEnv.full }

set_option maxRecDepth 100000 in
theorem dispatchLoopTimeoutPolicy_witness :
    (idleServer.transport = some idleServerT ∧ idleServer.running = true ∧
      (idleServerT.handles.reqFullSem && idleServerT.handles.reqEmptySem) = true ∧
      idleServerT.req.fullSem = 0 ∧ idleServerT.hasTimeout = true ∧
      handleServerRequest idleServer = (idleServer, none) ∧
      serverRun 1 idleServer = serverRun 0 idleServer) ∧
    (stuckServer.transport = some stuckT ∧ stuckServer.running = true ∧
      stuckT.resp.emptySem = 0 ∧
      decodeRequest (encodeRequest stuckReq) = .ok stuckReq ∧
      (handleServerRequest stuckServer).2 =
        some (.timeoutError ("Timeout sending response")) ∧
      (serverRun 1 stuckServer).1.running = false ∧
      (serverRun 1 stuckServer).1.transport = none ∧
      (serverRun 1 stuckServer).2 =
        some (.attributeError
          ("SharedMemoryTransport object has no attribute close"))) := by
  constructor
  · obtain ⟨h1, h2⟩ := dispatchLoopTimeoutPolicy.1 idleServer idleServerT 0
      rfl rfl rfl rfl rfl
    exact ⟨rfl, rfl, rfl, rfl, rfl, h1, h2⟩
  · obtain ⟨h1, h2, h3, h4⟩ := dispatchLoopTimeoutPolicy.2 stuckServer stuckT
      stuckReq (encodeRequest stuckReq) 0 rfl rfl rfl rfl rfl (by decide)
      rfl rfl (by decide) rfl (by decide) rfl
    exact ⟨rfl, rfl, rfl, rfl, congrArg Prod.snd h1, h2, h3, h4⟩

end ShmRpc

namespace ShmRpc

theorem closeIdempotence_witness :
    idleServer.transport = some idleServerT ∧
    (serverClose idleServer).2 =
      some (.attributeError
        ("SharedMemoryTransport object has no attribute close")) ∧
    (serverClose idleServer).1.env = idleServer.env ∧
    (serverClose idleServer).1.sigStarted = idleServer.sigStarted ∧
    (serverClose (serverClose idleServer).1).2 = none := by
  exact ⟨rfl, closeIdempotence.2.1 idleServer idleServerT rfl⟩

end ShmRpc
